import Mathlib

/-!
Shallow embedding of src/src/backend/app.py (Modernize-your-code backend
bootstrap module): the module-level globals, the lifespan startup and
shutdown phases, the health endpoint and create_app.  External calls
(credential acquisition, remote client creation, agent configuration
construction, remote agent creation and deletion, client close, telemetry
wiring) are modelled by environments recording, for each call of a run,
whether it returned a value or raised an exception; the try/except blocks
of the source become the total control flow of the Lean functions.
-/

namespace ModernizeBackend

/-- Abstract handles for credentials, clients, configurations and agent
sets: the source passes these values around without inspecting them, so
natural-number identifiers suffice. -/
abbrev Handle := Nat

/-- Process-wide state of the backend module: the two module-level globals
of app.py (sql_agents and azure_client, both initialised to None at import
time) together with the agent reference published through the
sql_agents.agent_manager accessors set_sql_agents and clear_sql_agents. -/
structure ProcState where
  sql_agents : Option Handle
  azure_client : Option Handle
  published : Option Handle
deriving DecidableEq, Repr

/-- External calls performed by the lifespan routines, recorded in order of
attempt; an event is recorded when the call is issued, whether or not the
call then raises. -/
inductive Ev where
  | getCredential
  | createClient
  | createConfig
  | createAgents
  | setAgents (h : Handle)
  | deleteAgents
  | clearAgents
  | closeClient
deriving DecidableEq, Repr

/-- Outcomes of the four fallible external calls of the startup phase:
none models the call raising an exception, some v models it returning
the value v. -/
structure StartupEnv where
  credResult : Option Handle
  clientResult : Option Handle
  configResult : Option Handle
  agentsResult : Option Handle
deriving DecidableEq, Repr

/-- Outcomes of the fallible external calls of the shutdown phase: whether
sql_agents.delete_agents and azure_client.close return normally (true) or
raise (false). -/
structure ShutdownEnv where
  deleteOk : Bool
  closeOk : Bool
deriving DecidableEq, Repr

/-- State of the module right after import: sql_agents = None,
azure_client = None, nothing published. -/
def initState : ProcState := ⟨none, none, none⟩

/-- Modelled from the spec: setAgents(AgentSet) of sql_agents.agent_manager
(its source is not under src/); publishes the created agent set into
process-wide state so route handlers can reach it. -/
def set_sql_agents (h : Handle) (s : ProcState) : ProcState :=
  { s with published := some h }

/-- Modelled from the spec: clearAgents() of sql_agents.agent_manager (its
source is not under src/); retracts the published agent set. -/
def clear_sql_agents (s : ProcState) : ProcState :=
  { s with published := none }

/-- Startup phase of lifespan (app.py lines 67 to 96): acquire credential,
create client (assigning the azure_client global on return), build the
agent configuration, create the agents (assigning the sql_agents global on
return), publish them via set_sql_agents; the surrounding
try/except Exception catches any raise, logs it and falls through to the
yield, which is modelled by the function being total and returning the
state reached when the first failing call raised. -/
def lifespan_startup (env : StartupEnv) (s : ProcState) : ProcState × List Ev :=
  match env.credResult with
  | none => (s, [Ev.getCredential])
  | some _ =>
    match env.clientResult with
    | none => (s, [Ev.getCredential, Ev.createClient])
    | some client =>
      let s1 := { s with azure_client := some client }
      match env.configResult with
      | none => (s1, [Ev.getCredential, Ev.createClient, Ev.createConfig])
      | some _ =>
        match env.agentsResult with
        | none =>
          (s1, [Ev.getCredential, Ev.createClient, Ev.createConfig, Ev.createAgents])
        | some agents =>
          let s2 := { s1 with sql_agents := some agents }
          (set_sql_agents agents s2,
            [Ev.getCredential, Ev.createClient, Ev.createConfig, Ev.createAgents,
              Ev.setAgents agents])

/-- Shutdown phase of lifespan (app.py lines 98 to 112): a single
try/except Exception block containing, in order, if sql_agents:
delete_agents then clear_sql_agents, and then if azure_client: close.
Because the two if blocks share one try, a raise from delete_agents skips
both clear_sql_agents and the close call; the except logs and swallows, so
the function is total.  A raise from close is likewise swallowed with
nothing left to skip. -/
def lifespan_shutdown (env : ShutdownEnv) (s : ProcState) : ProcState × List Ev :=
  match s.sql_agents with
  | some _ =>
    if env.deleteOk then
      let s1 := clear_sql_agents s
      match s1.azure_client with
      | some _ => (s1, [Ev.deleteAgents, Ev.clearAgents, Ev.closeClient])
      | none => (s1, [Ev.deleteAgents, Ev.clearAgents])
    else
      (s, [Ev.deleteAgents])
  | none =>
    match s.azure_client with
    | some _ => (s, [Ev.closeClient])
    | none => (s, [])

/-- The Ready state of the spec, reached by a fully successful startup that
created agent set a against client c: both module globals set and the agent
set published. -/
def readyState (a c : Handle) : ProcState := ⟨some a, some c, some a⟩

/-- Process states reachable from the fresh module state by running the
lifespan phases, each under an arbitrary environment of external-call
outcomes. -/
inductive Reachable : ProcState → Prop where
  | init : Reachable initState
  | startupStep (env : StartupEnv) (s : ProcState) :
      Reachable s → Reachable (lifespan_startup env s).1
  | shutdownStep (env : ShutdownEnv) (s : ProcState) :
      Reachable s → Reachable (lifespan_shutdown env s).1

/-- Response of a route handler: HTTP status code plus a JSON object body
modelled as key-value pairs. -/
structure HttpResponse where
  statusCode : Nat
  body : List (String × String)
deriving DecidableEq, Repr

/-- Health endpoint handler (app.py lines 141 to 144): returns the fixed
dict whatever the process state; the 200 status is the framework default
for a plain return.  The handler takes the process state as an argument
only so that independence from it can be stated; its body ignores it,
mirroring the source, which reads no global. -/
def health_check (_s : ProcState) : HttpResponse :=
  { statusCode := 200, body := [("status", "healthy")] }

/-- Outcomes of the two fallible telemetry stages: the module-level
try block wiring the exporter (imports, provider, OTLP exporter,
span processor), and the instrumentation calls inside create_app. -/
structure TelemetryEnv where
  setupOk : Bool
  instrumentOk : Bool
deriving DecidableEq, Repr

/-- The module-level _otel_available flag (app.py lines 29 to 52): true
exactly when the telemetry wiring try block completed; any raise there is
caught and sets the flag false. -/
def otel_available (env : TelemetryEnv) : Bool := env.setupOk

/-- Observable configuration of the constructed FastAPI application. -/
structure AppModel where
  title : String
  version : String
  instrumented : Bool
  corsOrigins : List String
  corsCredentials : Bool
  corsMethods : List String
  corsHeaders : List String
  mountedRouters : List (String × String)
  extraRoutes : List String
deriving DecidableEq, Repr

/-- The create_app function (app.py lines 115 to 146): build the app, then
instrument it only when _otel_available holds and the instrumentation calls
do not raise (a raise there is caught by the inner try/except and merely
logged, so instrumentation is skipped), then unconditionally add the
permissive CORS middleware, mount the backend router under /api and
register the /health route. -/
def create_app (env : TelemetryEnv) : AppModel :=
  let base : AppModel :=
    { title := "Code Gen Accelerator", version := "1.0.0", instrumented := false,
      corsOrigins := [], corsCredentials := false, corsMethods := [],
      corsHeaders := [], mountedRouters := [], extraRoutes := [] }
  let app1 := { base with instrumented := otel_available env && env.instrumentOk }
  let app2 := { app1 with
                corsOrigins := ["*"], corsCredentials := true,
                corsMethods := ["*"], corsHeaders := ["*"] }
  let app3 := { app2 with mountedRouters := [("/api", "backend")] }
  { app3 with extraRoutes := ["/health"] }

/-- Claim C1 counterexample: from the Ready state (agent set 1, client 2),
when delete_agents raises, the shutdown run records only the delete
attempt — the client-close call is never attempted, refuting the claim
that close is still attempted after a delete failure. -/
theorem shutdown_delete_failure_cex :
    (lifespan_shutdown ⟨false, true⟩ (readyState 1 2)).2 = [Ev.deleteAgents] ∧
      Ev.closeClient ∉ (lifespan_shutdown ⟨false, true⟩ (readyState 1 2)).2 := by
  decide

/-- Claim C1 (amended): for every shutdown run from Ready in which
delete_agents raises, the exception is caught (the run completes normally
and leaves the state unchanged), but the only external call made is the
delete attempt — the client-close call is not attempted, because both
cleanup steps share a single try block and the raise jumps straight to the
except handler. -/
theorem shutdown_delete_failure_caught_close_skipped (a c : Handle) (cOk : Bool) :
    lifespan_shutdown ⟨false, cOk⟩ (readyState a c) = (readyState a c, [Ev.deleteAgents]) :=
  rfl

/-- Claim C2: any exception during credential acquisition, client creation,
agent-configuration construction or agent creation is caught and swallowed
(the startup phase is a total function, so the lifespan generator reaches
its yield and the server serves), and in every such run starting from the
fresh module state nothing is published: the published agent set remains
absent. -/
theorem startup_failure_leaves_published_absent (env : StartupEnv)
    (h : env.credResult = none ∨ env.clientResult = none ∨
      env.configResult = none ∨ env.agentsResult = none) :
    (lifespan_startup env initState).1.published = none := by
  obtain ⟨cr, cl, cf, ag⟩ := env
  rcases cr with _ | cr <;> rcases cl with _ | cl <;> rcases cf with _ | cf <;>
    rcases ag with _ | ag <;>
    first
      | rfl
      | (rcases h with h | h | h | h <;> exact Option.noConfusion h)

/-- Witness for claim C2 at the environment in which credential acquisition
raises. -/
theorem startup_failure_leaves_published_absent_witness :
    (lifespan_startup ⟨none, none, none, none⟩ initState).1.published = none :=
  startup_failure_leaves_published_absent ⟨none, none, none, none⟩ (Or.inl rfl)

/-- Claim C3 counterexample: a startup run in which client creation returns
handle 5 but agent creation then raises leaves azure_client equal to
some 5 — not absent — and a subsequent fully successful shutdown still
leaves it equal to some 5; both parts refute the claim that azure_client
follows the agent-set lifecycle (absent after a startup failure and after
shutdown). -/
theorem azure_client_survives_cex :
    (lifespan_startup ⟨some 1, some 5, some 2, none⟩ initState).1.azure_client = some 5 ∧
      (lifespan_shutdown ⟨true, true⟩
        (lifespan_startup ⟨some 1, some 5, some 2, none⟩ initState).1).1.azure_client =
        some 5 := by
  decide

/-- Claim C3 (amended): azure_client does not follow the agent-set
lifecycle rules: it is absent only until the client-creation call succeeds,
and once assigned it is never cleared — every shutdown run leaves it
exactly as it was (close is called on it without resetting the reference),
and a startup run whose client creation returned x keeps azure_client equal
to some x even when a later step raised. -/
theorem azure_client_lifecycle :
    (∀ env s, (lifespan_shutdown env s).1.azure_client = s.azure_client) ∧
      (∀ cr cf ag,
        (lifespan_startup ⟨cr, none, cf, ag⟩ initState).1.azure_client = none) ∧
      (∀ cr x cf ag,
        (lifespan_startup ⟨some cr, some x, cf, ag⟩ initState).1.azure_client = some x) := by
  refine ⟨?_, ?_, ?_⟩
  · intro env s
    obtain ⟨dOk, cOk⟩ := env
    rcases s with ⟨sa, ac, pb⟩
    rcases sa with _ | a <;> rcases ac with _ | c <;> rcases dOk <;> rfl
  · intro cr cf ag
    rcases cr with _ | cr <;> rfl
  · intro cr x cf ag
    rcases cf with _ | cf
    · rfl
    · rcases ag with _ | ag <;> rfl

/-- Claim C4 counterexample: a fully successful shutdown from the Ready
state (agent set 1, client 2) leaves azure_client still equal to some 2, so
the resulting state is not Uninitialized (the client handle is not absent),
refuting the claim. -/
theorem shutdown_leaves_client_set_cex :
    (lifespan_shutdown ⟨true, true⟩ (readyState 1 2)).1.azure_client = some 2 := by
  decide

/-- Claim C4 (amended): every shutdown run from Ready whose delete call
succeeds performs agent deletion exactly once, then the clear, then client
close exactly once, in that order, and afterwards the published agent set
is absent — but the module-level sql_agents and azure_client references
remain set: the client is closed without the handle being cleared, so the
final state is not Uninitialized. -/
theorem shutdown_from_ready (a c : Handle) (cOk : Bool) :
    lifespan_shutdown ⟨true, cOk⟩ (readyState a c) =
      (⟨some a, some c, none⟩,
        [Ev.deleteAgents, Ev.clearAgents, Ev.closeClient]) :=
  rfl

/-- Claim C5: in every reachable process state, if the module sql_agents
global or the published agent set is non-absent then azure_client is
non-absent; since azure_client is never cleared once assigned (see the
shutdown-preservation part of the lifecycle analysis), the client was in
particular non-absent at the moment the agent set was created and
published, which happens only in the startup branch that had just assigned
the client. -/
theorem published_requires_client (s : ProcState) (hr : Reachable s) :
    s.sql_agents.isSome ∨ s.published.isSome → s.azure_client.isSome := by
  induction hr with
  | init =>
    intro hp
    rcases hp with hp | hp <;> simp [initState] at hp
  | startupStep env t hs ih =>
    intro hp
    obtain ⟨cr, cl, cf, ag⟩ := env
    rcases cr with _ | cr
    · exact ih hp
    rcases cl with _ | cl
    · exact ih hp
    rcases cf with _ | cf
    · exact rfl
    rcases ag with _ | ag
    · exact rfl
    · exact rfl
  | shutdownStep env t hs ih =>
    intro hp
    obtain ⟨dOk, cOk⟩ := env
    rcases t with ⟨sa, ac, pb⟩
    rcases sa with _ | a
    · rcases ac with _ | c
      · exact ih hp
      · exact ih hp
    · rcases dOk
      · exact ih hp
      · rcases ac with _ | c
        · exact ih (Or.inl rfl)
        · exact rfl

/-- Witness for claim C5 at the state reached by a fully successful startup
run: its published set is non-absent and the invariant yields that its
client handle is non-absent. -/
theorem published_requires_client_witness :
    ((lifespan_startup ⟨some 0, some 1, some 0, some 2⟩ initState).1).azure_client.isSome :=
  published_requires_client
    (lifespan_startup ⟨some 0, some 1, some 0, some 2⟩ initState).1
    (Reachable.startupStep ⟨some 0, some 1, some 0, some 2⟩ initState Reachable.init)
    (Or.inr (by decide))

/-- Claim C6: a shutdown run from the Uninitialized state (sql_agents and
azure_client both absent, nothing published) performs zero external calls
and raises no error: for every injected failure environment it returns the
state unchanged with an empty call trace. -/
theorem shutdown_uninit_noop (env : ShutdownEnv) :
    lifespan_shutdown env initState = (initState, []) :=
  rfl

/-- Claim C7: when every startup call succeeds and agent creation returns
handle h, the run publishes exactly h — its trace contains a single
setAgents event, carrying h, and the published set equals some h — and a
subsequent shutdown whose delete succeeds clears the published set back to
absent. -/
theorem successful_startup_publishes_handle (cr cl cf h : Handle) (cOk : Bool) :
    (lifespan_startup ⟨some cr, some cl, some cf, some h⟩ initState).1.published = some h ∧
      (lifespan_startup ⟨some cr, some cl, some cf, some h⟩ initState).2 =
        [Ev.getCredential, Ev.createClient, Ev.createConfig, Ev.createAgents,
          Ev.setAgents h] ∧
      (lifespan_shutdown ⟨true, cOk⟩
        (lifespan_startup ⟨some cr, some cl, some cf, some h⟩ initState).1).1.published =
        none :=
  ⟨rfl, rfl, rfl⟩

/-- Claim C8: when delete_agents raises during a shutdown run from Ready,
the call trace is exactly the delete attempt — clear_sql_agents is never
called (the trace contains no clearAgents event) — and the published agent
set still holds its stale handle afterwards, visible to request
handlers. -/
theorem delete_failure_keeps_published (a c : Handle) (cOk : Bool) :
    (lifespan_shutdown ⟨false, cOk⟩ (readyState a c)).2 = [Ev.deleteAgents] ∧
      (lifespan_shutdown ⟨false, cOk⟩ (readyState a c)).1.published = some a :=
  ⟨rfl, rfl⟩

/-- Claim C9: the health endpoint returns status 200 with body
status healthy in every process state, and its response does not depend on
the process state in any way: it is the same for any two states, so it
consults neither sql_agents nor azure_client. -/
theorem health_check_constant (s t : ProcState) :
    health_check s = { statusCode := 200, body := [("status", "healthy")] } ∧
      health_check s = health_check t :=
  ⟨rfl, rfl⟩

/-- Claim C10: telemetry failures never block application construction: for
every telemetry environment — wiring failed at module import, the
instrumentation calls raised, or both — create_app returns an app carrying
the permissive CORS middleware, the backend router mounted under /api and
the /health route; instrumentation is active exactly when both telemetry
stages succeeded, and is otherwise silently skipped. -/
theorem create_app_robust (env : TelemetryEnv) :
    (create_app env).corsOrigins = ["*"] ∧
      (create_app env).corsCredentials = true ∧
      (create_app env).corsMethods = ["*"] ∧
      (create_app env).corsHeaders = ["*"] ∧
      (create_app env).mountedRouters = [("/api", "backend")] ∧
      (create_app env).extraRoutes = ["/health"] ∧
      (create_app env).instrumented = (otel_available env && env.instrumentOk) :=
  ⟨rfl, rfl, rfl, rfl, rfl, rfl, rfl⟩

end ModernizeBackend
